import Mathlib

/-!
# Verification of the HuelladeCarbono change-processing core

Shallow embedding of the emission calculation engine (`calc-agent.ts`),
the validation agent (`validation-agent.ts`), the orchestrator
(`orchestrator.ts`), the audit agent (`audit-agent.ts`), the free-tier
storage guard (`free-tier-guard.ts`) and the store write path
(`pg-store.ts`).  JavaScript numbers are modelled as exact rationals
(`ℚ`); `Math.round` is modelled as `⌊x + 1/2⌋`, which is its exact
behaviour on every real argument (ties round toward +∞).
-/

namespace HC

/-- JavaScript `Math.round`: round half toward +∞. -/
def jsRound (x : ℚ) : ℤ := Int.floor (x + 1/2)

/-- `Math.round(x * 1000) / 1000` — round to 3 decimal places. -/
def round3 (x : ℚ) : ℚ := (jsRound (x * 1000) : ℚ) / 1000

/-- `Math.round(x * 10000) / 10000` — round to 4 decimal places. -/
def round4 (x : ℚ) : ℚ := (jsRound (x * 10000) : ℚ) / 10000

/-- `Math.round(x * 1000000) / 1000000` — round to 6 decimal places. -/
def round6 (x : ℚ) : ℚ := (jsRound (x * 1000000) : ℚ) / 1000000

/-- Global-warming potential of CH4 (AR6 IPCC), `hc-schemas.ts`. -/
def PCA_CH4 : ℚ := 27.9

/-- Global-warming potential of N2O (AR6 IPCC), `hc-schemas.ts`. -/
def PCA_N2O : ℚ := 273

/-- Emission factor triple: CO2 (kg/unit), CH4 (g/unit), N2O (g/unit). -/
structure FactorEmision where
  co2_kg_ud : ℚ
  ch4_g_ud : ℚ
  n2o_g_ud : ℚ
deriving DecidableEq

/-- Return type of `calcularEmisionesCombustible`. -/
structure EmisionesCombustible where
  co2_kg : ℚ
  ch4_g : ℚ
  n2o_g : ℚ
  total_kg_co2e : ℚ
deriving DecidableEq

/-- `calc-agent.ts` : combustion emissions from quantity and factor triple. -/
def calcularEmisionesCombustible (cantidad : ℚ) (fe : FactorEmision) :
    EmisionesCombustible :=
  let co2_kg := cantidad * fe.co2_kg_ud
  let ch4_g := cantidad * fe.ch4_g_ud
  let n2o_g := cantidad * fe.n2o_g_ud
  let total_kg_co2e := co2_kg + (ch4_g / 1000) * PCA_CH4 + (n2o_g / 1000) * PCA_N2O
  { co2_kg := round3 co2_kg
    ch4_g := round3 ch4_g
    n2o_g := round3 n2o_g
    total_kg_co2e := round3 total_kg_co2e }

/-- `calc-agent.ts` : fugitive emissions `recarga_kg × pca_gas`, 3-dp rounded. -/
def calcularEmisionesFugitivas (recarga_kg pca_gas : ℚ) : ℚ :=
  round3 (recarga_kg * pca_gas)

/-- `calc-agent.ts` : electricity emissions, zero when a renewable
certificate (GdO) is present. -/
def calcularEmisionesElectricidad (kwh_consumidos factor_mix_kg_co2_kwh : ℚ)
    (tiene_gdo : Bool) : ℚ :=
  if tiene_gdo then 0 else round3 (kwh_consumidos * factor_mix_kg_co2_kwh)

/-- Spec-side rounding, written from the spec's words: half-up rounding to
three decimal places at the kilogram scale. -/
def halfUpRound3 (x : ℚ) : ℚ := (Int.floor (x * 1000 + 1/2) : ℚ) / 1000

/-! ## Activity-record data loaded by `CalcAgent.recalculate`

Only the fields the recalculation reads are modelled: each aggregation in
`calc-agent.ts` reduces a list over one cached per-record emission field. -/

/-- A fixed-installation or vehicle record; `recalculate` reads only
`emisiones_totales_kg_co2e`. -/
structure RegistroCombustion where
  emisiones_totales_kg_co2e : ℚ
deriving DecidableEq

/-- A fugitive or process record; `recalculate` reads only
`emisiones_kg_co2e`. -/
structure RegistroFugitiva where
  emisiones_kg_co2e : ℚ
deriving DecidableEq

/-- An electricity record; `recalculate` reads only `emisiones_kg_co2`. -/
structure RegistroElectricidad where
  emisiones_kg_co2 : ℚ
deriving DecidableEq

structure Scope1InstalacionesFijas where
  no_sujetas_ley_1_2005 : List RegistroCombustion
  sujetas_ley_1_2005 : List RegistroCombustion

structure Scope1Vehiculos where
  transporte_carretera_A1_combustible : List RegistroCombustion
  transporte_carretera_A2_distancia_km : List RegistroCombustion
  transporte_ferroviario_maritimo_aereo : List RegistroCombustion
  maquinaria_movil : List RegistroCombustion

structure Scope1Fugitivas where
  climatizacion_refrigeracion : List RegistroFugitiva
  otros : List RegistroFugitiva

structure Scope1Proceso where
  emisiones : List RegistroFugitiva

structure Scope2Electricidad where
  electricidad_edificios : List RegistroElectricidad
  electricidad_vehiculos : List RegistroElectricidad
  calor_vapor_frio : List RegistroElectricidad

/-- Organization profile fields used by `recalculate` (ratio denominators). -/
structure Organizacion where
  num_empleados : ℚ
  superficie_m2 : ℚ
  indice_actividad_valor : ℚ

/-- `array.reduce((sum, x) => sum + f x, 0)`. -/
def sumBy {α : Type} (f : α → ℚ) (xs : List α) : ℚ :=
  xs.foldl (fun sum x => sum + f x) 0

/-- `calc-agent.ts` : subtotal of Scope 1 fixed installations. -/
def calcularAlcance1InstalacionesFijas (data : Option Scope1InstalacionesFijas) :
    ℚ × ℚ :=
  match data with
  | none => (0, 0)
  | some d =>
    (sumBy (·.emisiones_totales_kg_co2e) d.no_sujetas_ley_1_2005,
     sumBy (·.emisiones_totales_kg_co2e) d.sujetas_ley_1_2005)

/-- `calc-agent.ts` : subtotals of Scope 1 vehicles
(road, non-road, machinery), in kg. -/
def calcularAlcance1Vehiculos (data : Option Scope1Vehiculos) : ℚ × ℚ × ℚ :=
  match data with
  | none => (0, 0, 0)
  | some d =>
    (sumBy (·.emisiones_totales_kg_co2e) d.transporte_carretera_A1_combustible +
       sumBy (·.emisiones_totales_kg_co2e) d.transporte_carretera_A2_distancia_km,
     sumBy (·.emisiones_totales_kg_co2e) d.transporte_ferroviario_maritimo_aereo,
     sumBy (·.emisiones_totales_kg_co2e) d.maquinaria_movil)

/-- `calc-agent.ts` : subtotal of Scope 1 fugitive emissions, in kg. -/
def calcularAlcance1Fugitivas (data : Option Scope1Fugitivas) : ℚ :=
  match data with
  | none => 0
  | some d =>
    sumBy (·.emisiones_kg_co2e) d.climatizacion_refrigeracion +
      sumBy (·.emisiones_kg_co2e) d.otros

/-- `calc-agent.ts` : subtotal of Scope 1 process emissions, in kg. -/
def calcularAlcance1Proceso (data : Option Scope1Proceso) : ℚ :=
  match data with
  | none => 0
  | some d => sumBy (·.emisiones_kg_co2e) d.emisiones

/-- `calc-agent.ts` : subtotals of Scope 2 electricity
(buildings, vehicles, heat/steam/cold), in kg. -/
def calcularAlcance2 (data : Option Scope2Electricidad) : ℚ × ℚ × ℚ :=
  match data with
  | none => (0, 0, 0)
  | some d =>
    (sumBy (·.emisiones_kg_co2) d.electricidad_edificios,
     sumBy (·.emisiones_kg_co2) d.electricidad_vehiculos,
     sumBy (·.emisiones_kg_co2) d.calor_vapor_frio)

/-- Result sheet, Scope 1 block, in tonnes of CO2e. -/
structure Alcance1 where
  instalaciones_fijas_no_ley : ℚ
  instalaciones_fijas_ley : ℚ
  transporte_carretera : ℚ
  transporte_ferroviario_maritimo_aereo : ℚ
  maquinaria : ℚ
  fugitivas : ℚ
  proceso : ℚ
  total_t_co2e : ℚ
deriving DecidableEq

/-- Result sheet, Scope 2 block, in tonnes of CO2e. -/
structure Alcance2 where
  electricidad_edificios : ℚ
  electricidad_vehiculos : ℚ
  calor_vapor_frio : ℚ
  total_t_co2e : ℚ
deriving DecidableEq

/-- Result sheet intensity ratios. -/
structure Ratios where
  t_co2e_por_empleado : ℚ
  t_co2e_por_m2 : ℚ
  t_co2e_por_indice_actividad : ℚ
deriving DecidableEq

/-- Organization-year result sheet (`Resultados` in `hc-schemas.ts`). -/
structure Resultados where
  anio_calculo : ℤ
  alcance_1 : Alcance1
  alcance_2 : Alcance2
  total_alcance_1_2_t_co2e : ℚ
  ratios : Ratios
deriving DecidableEq

/-- JavaScript `v || 1` on an optionally-present numeric field: `1` when the
holder object is null or the value is `0` (falsy), the value otherwise. -/
def jsOrOne : Option ℚ → ℚ
  | none => 1
  | some v => if v = 0 then 1 else v

/-- All data loaded by `CalcAgent.recalculate` for one (organization, year). -/
structure OrgYearData where
  org : Option Organizacion
  scope1Fijas : Option Scope1InstalacionesFijas
  scope1Vehiculos : Option Scope1Vehiculos
  scope1Fugitivas : Option Scope1Fugitivas
  scope1Proceso : Option Scope1Proceso
  scope2Data : Option Scope2Electricidad

/-- `CalcAgent.recalculate` (`calc-agent.ts`), as a pure function of the
loaded data; the produced `Resultados` value is what `saveResults` persists. -/
def recalculate (anio : ℤ) (d : OrgYearData) : Resultados :=
  let fijas := calcularAlcance1InstalacionesFijas d.scope1Fijas
  let vehiculos := calcularAlcance1Vehiculos d.scope1Vehiculos
  let fugitivas_kg := calcularAlcance1Fugitivas d.scope1Fugitivas
  let proceso_kg := calcularAlcance1Proceso d.scope1Proceso
  let total_alcance1_kg :=
    fijas.1 + fijas.2 + vehiculos.1 + vehiculos.2.1 + vehiculos.2.2 +
      fugitivas_kg + proceso_kg
  let alcance2 := calcularAlcance2 d.scope2Data
  let total_alcance2_kg := alcance2.1 + alcance2.2.1 + alcance2.2.2
  let total_t := (total_alcance1_kg + total_alcance2_kg) / 1000
  let numEmpleados := jsOrOne (d.org.map (·.num_empleados))
  let superficieM2 := jsOrOne (d.org.map (·.superficie_m2))
  let indiceActividad := jsOrOne (d.org.map (·.indice_actividad_valor))
  { anio_calculo := anio
    alcance_1 :=
      { instalaciones_fijas_no_ley := round3 (fijas.1 / 1000)
        instalaciones_fijas_ley := round3 (fijas.2 / 1000)
        transporte_carretera := round3 (vehiculos.1 / 1000)
        transporte_ferroviario_maritimo_aereo := round3 (vehiculos.2.1 / 1000)
        maquinaria := round3 (vehiculos.2.2 / 1000)
        fugitivas := round3 (fugitivas_kg / 1000)
        proceso := round3 (proceso_kg / 1000)
        total_t_co2e := round3 (total_alcance1_kg / 1000) }
    alcance_2 :=
      { electricidad_edificios := round3 (alcance2.1 / 1000)
        electricidad_vehiculos := round3 (alcance2.2.1 / 1000)
        calor_vapor_frio := round3 (alcance2.2.2 / 1000)
        total_t_co2e := round3 (total_alcance2_kg / 1000) }
    total_alcance_1_2_t_co2e := round3 total_t
    ratios :=
      { t_co2e_por_empleado := round3 (total_t / numEmpleados)
        t_co2e_por_m2 := round4 (total_t / superficieM2)
        t_co2e_por_indice_actividad := round6 (total_t / indiceActividad) } }

/-! ## Threshold check (`orchestrator.ts`) -/

/-- Alert threshold in percent (`THRESHOLD_PERCENT` in `orchestrator.ts`). -/
def THRESHOLD_PERCENT : ℚ := 10

/-- Direction word used in the alert text (`AUMENTO` / `REDUCCIÓN`). -/
inductive Direccion
  | aumento
  | reduccion
deriving DecidableEq

/-- The data the threshold alert string states: direction, magnitude
(percent, absolute value), and both totals.  The human-readable Spanish
sentence itself is abstracted to this record. -/
structure ThresholdAlert where
  direccion : Direccion
  variacionAbs : ℚ
  previousTotal : ℚ
  currentTotal : ℚ
deriving DecidableEq

/-- `HCOrchestrator.checkThresholds`: compare the new combined total with the
prior year's combined total; `previousResults` is what
`loadResults(orgId, anio - 1)` returned (`none` when no prior-year results
exist). -/
def checkThresholds (previousResults : Option Resultados)
    (currentResults : Resultados) : List ThresholdAlert :=
  match previousResults with
  | none => []
  | some prev =>
    if prev.total_alcance_1_2_t_co2e > 0 then
      let previousTotal := prev.total_alcance_1_2_t_co2e
      let currentTotal := currentResults.total_alcance_1_2_t_co2e
      let variacion := ((currentTotal - previousTotal) / previousTotal) * 100
      if |variacion| > THRESHOLD_PERCENT then
        [{ direccion := if variacion > 0 then .aumento else .reduccion
           variacionAbs := |variacion|
           previousTotal := previousTotal
           currentTotal := currentTotal }]
      else []
    else []

/-! ## Validation agent (`validation-agent.ts`) -/

/-- A dynamically-typed JS value carried in `oldValue` / `newValue`. -/
inductive JSValue
  | num (q : ℚ)
  | str (s : String)
  | nullv
deriving DecidableEq

inductive Severity
  | error
  | warning
deriving DecidableEq

/-- One entry of `ValidationResult.errors`; the human-readable `message`
string is abstracted away (no claim depends on its text). -/
structure ValidationEntry where
  field : String
  severity : Severity
deriving DecidableEq

structure ValidationResult where
  isValid : Bool
  errors : List ValidationEntry
deriving DecidableEq

/-- A JavaScript exception thrown while a rule evaluates (as opposed to a
structured validation failure). -/
inductive JSException
  | typeError
deriving DecidableEq

/-- A change event (`DataChangeEvent` in `hc-schemas.ts`); fields not read
by the modelled pipeline (`userId`, `timestamp`, …) are kept as `String`. -/
structure DataChangeEvent where
  userId : String
  orgId : String
  anio : ℤ
  entity : String
  entityId : Option String
  field : String
  oldValue : JSValue
  newValue : JSValue
  timestamp : String

/-- Rule 1: calculation year check.  Outside the 2007–2027 range the rule
pushes an `error` entry.  Inside the range the source evaluates
`factors && !factors.anios_disponibles.includes(event.anio)`, but `factors`
is the un-awaited return value of pg-store's `async loadEmissionFactors()`
— a Promise, which is always truthy and has no `anios_disponibles`
property — so `undefined.includes` throws a TypeError for every in-range
year. -/
def ruleAnio (event : DataChangeEvent) :
    Except JSException (List ValidationEntry) :=
  if event.anio < 2007 ∨ 2027 < event.anio then
    .ok [{ field := "anio", severity := .error }]
  else
    .error .typeError

/-- Rule 2: a numeric `newValue` must be non-negative (`error` otherwise). -/
def ruleNoNegativo (event : DataChangeEvent) : List ValidationEntry :=
  match event.newValue with
  | .num q => if q < 0 then [{ field := event.field, severity := .error }] else []
  | _ => []

/-- Rule 3: a quantity field above 10,000,000 is flagged with a `warning`. -/
def ruleCantidadRazonable (event : DataChangeEvent) : List ValidationEntry :=
  match event.newValue with
  | .num q =>
    if (event.field.containsSubstr "cantidad".toSubstring) ∧ q > 10000000 then
      [{ field := event.field, severity := .warning }]
    else []
  | _ => []

/-- Rule 4: fuel-type catalog check.  For `field = "tipo_combustible"` with
a string value the source spreads `dropdowns.tipos_combustible_fijo`, but
`dropdowns` is the un-awaited return value of pg-store's
`async loadDropdowns()` — a truthy Promise whose properties are
`undefined` — so the spread throws a TypeError instead of checking the
catalog. -/
def ruleCombustibleValido (event : DataChangeEvent) :
    Except JSException (List ValidationEntry) :=
  if event.field = "tipo_combustible" then
    match event.newValue with
    | .str _ => .error .typeError
    | _ => .ok []
  else .ok []

/-- `ValidationAgent.validate`: the four rules push entries in order onto
one list; a throwing rule aborts the run (the entries pushed so far are
discarded and the exception propagates to the caller); on a completed run
`isValid` holds iff no entry has `error` severity. -/
def validate (event : DataChangeEvent) :
    Except JSException ValidationResult :=
  match ruleAnio event with
  | .error e => .error e
  | .ok e1 =>
    let e2 := ruleNoNegativo event
    let e3 := ruleCantidadRazonable event
    match ruleCombustibleValido event with
    | .error e => .error e
    | .ok e4 =>
      let errors := e1 ++ e2 ++ e3 ++ e4
      .ok { isValid := (errors.filter (fun e => e.severity = .error)).length = 0
            errors := errors }

/-! ## Audit agent (`audit-agent.ts`) and orchestrator (`orchestrator.ts`) -/

/-- The audit row built by `AuditAgent.log` (the random `id`, `ip_address`
and `session_id` side data are not modelled). -/
structure AuditRow where
  user_id : String
  org_id : String
  accion : String
  entidad_tipo : String
  entidad_id : String
  campo_modificado : String
  valor_anterior : JSValue
  valor_nuevo : JSValue
  timestamp : String

/-- The audit row `HCOrchestrator.onDataChange` records for a change event
(step 1 of the pipeline, `accion = 'UPDATE'`). -/
def auditRowOf (event : DataChangeEvent) : AuditRow :=
  { user_id := event.userId
    org_id := event.orgId
    accion := "UPDATE"
    entidad_tipo := event.entity
    entidad_id := event.entityId.getD ""
    campo_modificado := event.field
    valor_anterior := event.oldValue
    valor_nuevo := event.newValue
    timestamp := event.timestamp }

/-- One observable step of the orchestration pipeline, in execution order;
the validation step carries its outcome — a structured result, or the
exception it threw. -/
inductive PipelineStep
  | audit (row : AuditRow)
  | validation (result : Except JSException ValidationResult)
  | recalc (orgId : String) (anio : ℤ)
  | thresholds (alerts : List ThresholdAlert)

/-- Non-blocking alerts returned to the caller: validation warnings first,
then threshold alerts. -/
inductive Alert
  | warning (entry : ValidationEntry)
  | threshold (alert : ThresholdAlert)

/-- Successful outcome of `onDataChange`. -/
structure OnDataChangeOk where
  results : Resultados
  alerts : List Alert
  validation : ValidationResult

/-- How `onDataChange` can reject: a `ValidationError` carrying the
structured error list, or an exception thrown inside the pipeline that
propagates to the caller unchanged. -/
inductive OrchestratorFailure
  | validationError (errors : List ValidationEntry)
  | exception (e : JSException)

/-- The collaborators `onDataChange` reads: the persisted records of the
affected (organization, year) for the recalculation, and the prior year's
results for the threshold check. -/
structure OrchestratorEnv where
  data : OrgYearData
  previousResults : Option Resultados

/-- `HCOrchestrator.onDataChange`: audit → validation → recalculation →
threshold check.  Returns the executed pipeline steps in order together
with the outcome: a structured validation failure rejects with the error
list, an exception thrown by the validation agent propagates unchanged,
and in both cases no further step executes. -/
def onDataChange (env : OrchestratorEnv) (event : DataChangeEvent) :
    List PipelineStep × Except OrchestratorFailure OnDataChangeOk :=
  let row := auditRowOf event
  match validate event with
  | .error e =>
    ([.audit row, .validation (.error e)], .error (.exception e))
  | .ok validation =>
    if validation.isValid then
      let updatedResults := recalculate event.anio env.data
      let thresholdAlerts := checkThresholds env.previousResults updatedResults
      let alerts :=
        (validation.errors.filter (fun e => e.severity = .warning)).map .warning ++
          thresholdAlerts.map .threshold
      ([.audit row, .validation (.ok validation), .recalc event.orgId event.anio,
        .thresholds thresholdAlerts],
       .ok { results := updatedResults, alerts := alerts, validation := validation })
    else
      ([.audit row, .validation (.ok validation)],
       .error (.validationError validation.errors))

/-! ## Free-tier storage guard (`free-tier-guard.ts`) and store write path
(`pg-store.ts`)

The module-level cache `_cache` is threaded explicitly: every operation takes
the cache before and returns the cache after.  `Date.now()` is an explicit
`now` parameter, and the two usage-statistics queries are an explicit
`usage` parameter — `none` models the queries throwing. -/

/-- Hard storage limit: 400 MB (`HARD_LIMIT_BYTES`). -/
def HARD_LIMIT_BYTES : ℕ := 400 * 1024 * 1024

/-- Warning storage limit: 300 MB (`WARN_LIMIT_BYTES`). -/
def WARN_LIMIT_BYTES : ℕ := 300 * 1024 * 1024

/-- Maximum row count in `org_year_data` (`MAX_ROWS`). -/
def MAX_ROWS : ℕ := 10000

/-- Cache time to live: 60 seconds (`CACHE_TTL_MS`). -/
def CACHE_TTL_MS : ℤ := 60000

/-- One cached usage measurement (`SizeCache`). -/
structure SizeCache where
  bytes : ℕ
  rows : ℕ
  checkedAt : ℤ
deriving DecidableEq

/-- The module-level `_cache` variable (`null` ↦ `none`). -/
def GuardCache : Type := Option SizeCache

/-- `getDatabaseSize`: serve a cached measurement younger than the TTL;
otherwise run the usage queries and cache the result, or — when the queries
throw (`usage = none`) — report zero bytes and zero rows without caching.
Returns the measurement and the cache afterwards. -/
def getDatabaseSize (now : ℤ) (usage : Option (ℕ × ℕ)) (cache : GuardCache) :
    SizeCache × GuardCache :=
  match cache with
  | some c =>
    if now - c.checkedAt < CACHE_TTL_MS then (c, some c)
    else
      match usage with
      | some (b, r) => (⟨b, r, now⟩, some ⟨b, r, now⟩)
      | none => (⟨0, 0, now⟩, some c)
  | none =>
    match usage with
    | some (b, r) => (⟨b, r, now⟩, some ⟨b, r, now⟩)
    | none => (⟨0, 0, now⟩, none)

/-- Verdict of `checkWriteAllowed` (`GuardResult`); the optional
`warning` / `error` message strings are abstracted to presence flags. -/
structure GuardResult where
  allowed : Bool
  dbSizeBytes : ℕ
  rowCount : ℕ
  hasWarning : Bool
  hasError : Bool
deriving DecidableEq

/-- The verdict `checkWriteAllowed` derives from a measurement: hard block on
bytes, hard block on rows, byte warning, clean — in that order. -/
def guardVerdict (bytes rows : ℕ) : GuardResult :=
  if bytes ≥ HARD_LIMIT_BYTES then
    { allowed := false, dbSizeBytes := bytes, rowCount := rows
      hasWarning := false, hasError := true }
  else if rows ≥ MAX_ROWS then
    { allowed := false, dbSizeBytes := bytes, rowCount := rows
      hasWarning := false, hasError := true }
  else if bytes ≥ WARN_LIMIT_BYTES then
    { allowed := true, dbSizeBytes := bytes, rowCount := rows
      hasWarning := true, hasError := false }
  else
    { allowed := true, dbSizeBytes := bytes, rowCount := rows
      hasWarning := false, hasError := false }

/-- `checkWriteAllowed`: measure (possibly from cache), then apply the
threshold policy.  Returns the verdict and the cache afterwards. -/
def checkWriteAllowed (now : ℤ) (usage : Option (ℕ × ℕ)) (cache : GuardCache) :
    GuardResult × GuardCache :=
  let r := getDatabaseSize now usage cache
  (guardVerdict r.1.bytes r.1.rows, r.2)

/-- `invalidateCache`: reset the module-level cache to `null`. -/
def invalidateCache (_cache : GuardCache) : GuardCache := none

/-- Outcome of a store write: blocked by the guard (HTTP 507,
`FreeTierBlockedError`) or performed. -/
inductive WriteOutcome
  | blocked (result : GuardResult)
  | written
deriving DecidableEq

/-- `upsertOrgData` (`pg-store.ts`): `guardWrite` (check, throw when not
allowed), then the UPSERT, then `invalidateCache()` — the returned cache is
the cache at the moment the write's result is returned to the caller. -/
def upsertOrgData (now : ℤ) (usage : Option (ℕ × ℕ)) (cache : GuardCache) :
    WriteOutcome × GuardCache :=
  let r := checkWriteAllowed now usage cache
  if r.1.allowed then (.written, invalidateCache r.2)
  else (.blocked r.1, r.2)

/-- A `Resultados` value whose combined total is `t` and whose other fields
are zero; used to state concrete threshold-check cases. -/
def resultadosTotal (t : ℚ) : Resultados :=
  { anio_calculo := 2024
    alcance_1 :=
      { instalaciones_fijas_no_ley := 0, instalaciones_fijas_ley := 0
        transporte_carretera := 0, transporte_ferroviario_maritimo_aereo := 0
        maquinaria := 0, fugitivas := 0, proceso := 0, total_t_co2e := 0 }
    alcance_2 :=
      { electricidad_edificios := 0, electricidad_vehiculos := 0
        calor_vapor_frio := 0, total_t_co2e := 0 }
    total_alcance_1_2_t_co2e := t
    ratios :=
      { t_co2e_por_empleado := 0, t_co2e_por_m2 := 0
        t_co2e_por_indice_actividad := 0 } }

end HC

namespace HC

/-- Rounding to 3 decimals moves a value by at most 1/2000. -/
lemma abs_round3_sub_le (x : ℚ) : |round3 x - x| ≤ 1/2000 := by
  have h1 : (⌊x * 1000 + 1/2⌋ : ℚ) ≤ x * 1000 + 1/2 := Int.floor_le _
  have h2 : x * 1000 + 1/2 - 1 < (⌊x * 1000 + 1/2⌋ : ℚ) := Int.sub_one_lt_floor _
  rw [round3, jsRound, abs_le]
  constructor <;> [linarith; linarith]

end HC

/-- C1: for `quantity ≥ 0` and a non-negative factor triple,
`calcularEmisionesCombustible` returns the three gas quantities
`q·feCO2`, `q·feCH4`, `q·feN2O` and the total
`co2_kg + (ch4_g/1000)·27.9 + (n2o_g/1000)·273`, each rounded half-up to
3 decimal places, with 27.9 and 273 the fixed process-wide GWP constants. -/
theorem HC.combustion_formula_correct (q : ℚ) (fe : HC.FactorEmision)
    (_hq : 0 ≤ q) (_hco2 : 0 ≤ fe.co2_kg_ud) (_hch4 : 0 ≤ fe.ch4_g_ud)
    (_hn2o : 0 ≤ fe.n2o_g_ud) :
    HC.calcularEmisionesCombustible q fe =
      { co2_kg := HC.halfUpRound3 (q * fe.co2_kg_ud)
        ch4_g := HC.halfUpRound3 (q * fe.ch4_g_ud)
        n2o_g := HC.halfUpRound3 (q * fe.n2o_g_ud)
        total_kg_co2e := HC.halfUpRound3 (q * fe.co2_kg_ud +
          (q * fe.ch4_g_ud / 1000) * 27.9 + (q * fe.n2o_g_ud / 1000) * 273) } := by
  simp only [HC.calcularEmisionesCombustible, HC.round3, HC.jsRound,
    HC.halfUpRound3, HC.PCA_CH4, HC.PCA_N2O]

theorem HC.combustion_formula_correct_witness :
    HC.calcularEmisionesCombustible 2 ⟨1, 3, 5⟩ =
      { co2_kg := HC.halfUpRound3 (2 * 1)
        ch4_g := HC.halfUpRound3 (2 * 3)
        n2o_g := HC.halfUpRound3 (2 * 5)
        total_kg_co2e := HC.halfUpRound3 (2 * 1 + (2 * 3 / 1000) * 27.9 +
          (2 * 5 / 1000) * 273) } :=
  HC.combustion_formula_correct 2 ⟨1, 3, 5⟩ (by norm_num) (by norm_num)
    (by norm_num) (by norm_num)

/-- C2 counterexample: at `q = 50000` and factors
`(0.202 kg, 0.00004 g, 0.00001 g)` the combustion function's total is
10100.192 kg CO2e, not within 0.1 of the claimed 10292.3 (the claimed
figure corresponds to skipping the g→kg conversion of CH4 and N2O). -/
theorem HC.combustion_example_total_refuted :
    ¬ (|(HC.calcularEmisionesCombustible 50000 ⟨0.202, 0.00004, 0.00001⟩).co2_kg
          - 10100| ≤ 0.1 ∧
       |(HC.calcularEmisionesCombustible 50000
            ⟨0.202, 0.00004, 0.00001⟩).total_kg_co2e - 10292.3| ≤ 0.1) := by
  rintro ⟨-, h⟩
  rw [abs_le] at h
  revert h
  norm_num [HC.calcularEmisionesCombustible, HC.round3, HC.jsRound, HC.PCA_CH4,
    HC.PCA_N2O]

/-- C2 amended: at `q = 50000` and factors `(0.202, 0.00004, 0.00001)` the
combustion function returns `co2Kg` within 0.1 of 10100 and `totalKgCO2e`
within 0.1 of 10100.2 (exact value 10100.192). -/
theorem HC.combustion_example_total_amended :
    |(HC.calcularEmisionesCombustible 50000 ⟨0.202, 0.00004, 0.00001⟩).co2_kg
        - 10100| ≤ 0.1 ∧
      |(HC.calcularEmisionesCombustible 50000
          ⟨0.202, 0.00004, 0.00001⟩).total_kg_co2e - 10100.2| ≤ 0.1 := by
  constructor <;>
    · rw [abs_le]
      constructor <;>
        norm_num [HC.calcularEmisionesCombustible, HC.round3, HC.jsRound,
          HC.PCA_CH4, HC.PCA_N2O]

/-- C3: for `rechargeKg ≥ 0` and `gwp ≥ 0` the fugitive function returns
`rechargeKg · gwp` rounded half-up to 3 decimals, in kilograms — no
division by 1000 is performed; in particular `calcFugitive(10, 1430) =
14300`. -/
theorem HC.fugitive_no_unit_scaling (recarga_kg pca_gas : ℚ)
    (_hr : 0 ≤ recarga_kg) (_hp : 0 ≤ pca_gas) :
    HC.calcularEmisionesFugitivas recarga_kg pca_gas =
        HC.halfUpRound3 (recarga_kg * pca_gas) ∧
      HC.calcularEmisionesFugitivas 10 1430 = 14300 := by
  constructor
  · simp only [HC.calcularEmisionesFugitivas, HC.round3, HC.jsRound,
      HC.halfUpRound3]
  · norm_num [HC.calcularEmisionesFugitivas, HC.round3, HC.jsRound]

theorem HC.fugitive_no_unit_scaling_witness :
    HC.calcularEmisionesFugitivas 10 1430 = HC.halfUpRound3 (10 * 1430) ∧
      HC.calcularEmisionesFugitivas 10 1430 = 14300 :=
  HC.fugitive_no_unit_scaling 10 1430 (by norm_num) (by norm_num)

/-- C4 counterexample: with two fixed-installation records of 0.3 kg CO2e
each (one per Ley-1/2005 category) and nothing else, `recalculate` rounds
both category subtotals of Scope 1 down to 0.000 t but the Scope 1 grand
total to 0.001 t, so the grand total is not the sum of the seven category
subtotals. -/
theorem HC.results_totals_not_sum_of_subtotals :
    ¬ ((HC.recalculate 2024
          ⟨none, some ⟨[⟨3/10⟩], [⟨3/10⟩]⟩, none, none, none, none⟩).alcance_1.total_t_co2e =
        (HC.recalculate 2024
          ⟨none, some ⟨[⟨3/10⟩], [⟨3/10⟩]⟩, none, none, none, none⟩).alcance_1.instalaciones_fijas_no_ley +
        (HC.recalculate 2024
          ⟨none, some ⟨[⟨3/10⟩], [⟨3/10⟩]⟩, none, none, none, none⟩).alcance_1.instalaciones_fijas_ley +
        (HC.recalculate 2024
          ⟨none, some ⟨[⟨3/10⟩], [⟨3/10⟩]⟩, none, none, none, none⟩).alcance_1.transporte_carretera +
        (HC.recalculate 2024
          ⟨none, some ⟨[⟨3/10⟩], [⟨3/10⟩]⟩, none, none, none, none⟩).alcance_1.transporte_ferroviario_maritimo_aereo +
        (HC.recalculate 2024
          ⟨none, some ⟨[⟨3/10⟩], [⟨3/10⟩]⟩, none, none, none, none⟩).alcance_1.maquinaria +
        (HC.recalculate 2024
          ⟨none, some ⟨[⟨3/10⟩], [⟨3/10⟩]⟩, none, none, none, none⟩).alcance_1.fugitivas +
        (HC.recalculate 2024
          ⟨none, some ⟨[⟨3/10⟩], [⟨3/10⟩]⟩, none, none, none, none⟩).alcance_1.proceso) := by
  norm_num [HC.recalculate, HC.calcularAlcance1InstalacionesFijas,
    HC.calcularAlcance1Vehiculos, HC.calcularAlcance1Fugitivas,
    HC.calcularAlcance1Proceso, HC.calcularAlcance2, HC.sumBy, HC.jsOrOne,
    HC.round3, HC.round4, HC.round6, HC.jsRound]

/-- C4 amended: each grand total produced by `recalculate` is the half-up
3-dp rounding of the exact sum of its category subtotals (sum first, round
once); consequently each grand total differs from the sum of the rounded
category subtotals it is stored next to by rounding error only (at most
0.004 t for Scope 1, 0.002 t for Scope 2, 0.0015 t for the combined
total), and exact additivity as claimed can fail. -/
theorem HC.results_totals_rounded_sums (anio : ℤ) (d : HC.OrgYearData) :
    ((HC.recalculate anio d).alcance_1.total_t_co2e =
      HC.halfUpRound3 (((HC.calcularAlcance1InstalacionesFijas d.scope1Fijas).1 +
        (HC.calcularAlcance1InstalacionesFijas d.scope1Fijas).2 +
        (HC.calcularAlcance1Vehiculos d.scope1Vehiculos).1 +
        (HC.calcularAlcance1Vehiculos d.scope1Vehiculos).2.1 +
        (HC.calcularAlcance1Vehiculos d.scope1Vehiculos).2.2 +
        HC.calcularAlcance1Fugitivas d.scope1Fugitivas +
        HC.calcularAlcance1Proceso d.scope1Proceso) / 1000)) ∧
    ((HC.recalculate anio d).alcance_2.total_t_co2e =
      HC.halfUpRound3 (((HC.calcularAlcance2 d.scope2Data).1 +
        (HC.calcularAlcance2 d.scope2Data).2.1 +
        (HC.calcularAlcance2 d.scope2Data).2.2) / 1000)) ∧
    ((HC.recalculate anio d).total_alcance_1_2_t_co2e =
      HC.halfUpRound3 ((((HC.calcularAlcance1InstalacionesFijas d.scope1Fijas).1 +
        (HC.calcularAlcance1InstalacionesFijas d.scope1Fijas).2 +
        (HC.calcularAlcance1Vehiculos d.scope1Vehiculos).1 +
        (HC.calcularAlcance1Vehiculos d.scope1Vehiculos).2.1 +
        (HC.calcularAlcance1Vehiculos d.scope1Vehiculos).2.2 +
        HC.calcularAlcance1Fugitivas d.scope1Fugitivas +
        HC.calcularAlcance1Proceso d.scope1Proceso) +
        ((HC.calcularAlcance2 d.scope2Data).1 +
        (HC.calcularAlcance2 d.scope2Data).2.1 +
        (HC.calcularAlcance2 d.scope2Data).2.2)) / 1000)) ∧
    (|(HC.recalculate anio d).alcance_1.total_t_co2e -
        ((HC.recalculate anio d).alcance_1.instalaciones_fijas_no_ley +
          (HC.recalculate anio d).alcance_1.instalaciones_fijas_ley +
          (HC.recalculate anio d).alcance_1.transporte_carretera +
          (HC.recalculate anio d).alcance_1.transporte_ferroviario_maritimo_aereo +
          (HC.recalculate anio d).alcance_1.maquinaria +
          (HC.recalculate anio d).alcance_1.fugitivas +
          (HC.recalculate anio d).alcance_1.proceso)| ≤ 4/1000) ∧
    (|(HC.recalculate anio d).alcance_2.total_t_co2e -
        ((HC.recalculate anio d).alcance_2.electricidad_edificios +
          (HC.recalculate anio d).alcance_2.electricidad_vehiculos +
          (HC.recalculate anio d).alcance_2.calor_vapor_frio)| ≤ 2/1000) ∧
    (|(HC.recalculate anio d).total_alcance_1_2_t_co2e -
        ((HC.recalculate anio d).alcance_1.total_t_co2e +
          (HC.recalculate anio d).alcance_2.total_t_co2e)| ≤ 3/2000) := by
  refine ⟨?_, ?_, ?_, ?_, ?_, ?_⟩
  · simp only [HC.recalculate, HC.halfUpRound3, HC.round3, HC.jsRound]
  · simp only [HC.recalculate, HC.halfUpRound3, HC.round3, HC.jsRound]
  · simp only [HC.recalculate, HC.halfUpRound3, HC.round3, HC.jsRound]
  · simp only [HC.recalculate]
    have e0 := HC.abs_round3_sub_le
      (((HC.calcularAlcance1InstalacionesFijas d.scope1Fijas).1 +
        (HC.calcularAlcance1InstalacionesFijas d.scope1Fijas).2 +
        (HC.calcularAlcance1Vehiculos d.scope1Vehiculos).1 +
        (HC.calcularAlcance1Vehiculos d.scope1Vehiculos).2.1 +
        (HC.calcularAlcance1Vehiculos d.scope1Vehiculos).2.2 +
        HC.calcularAlcance1Fugitivas d.scope1Fugitivas +
        HC.calcularAlcance1Proceso d.scope1Proceso) / 1000)
    have e1 := HC.abs_round3_sub_le
      ((HC.calcularAlcance1InstalacionesFijas d.scope1Fijas).1 / 1000)
    have e2 := HC.abs_round3_sub_le
      ((HC.calcularAlcance1InstalacionesFijas d.scope1Fijas).2 / 1000)
    have e3 := HC.abs_round3_sub_le
      ((HC.calcularAlcance1Vehiculos d.scope1Vehiculos).1 / 1000)
    have e4 := HC.abs_round3_sub_le
      ((HC.calcularAlcance1Vehiculos d.scope1Vehiculos).2.1 / 1000)
    have e5 := HC.abs_round3_sub_le
      ((HC.calcularAlcance1Vehiculos d.scope1Vehiculos).2.2 / 1000)
    have e6 := HC.abs_round3_sub_le
      (HC.calcularAlcance1Fugitivas d.scope1Fugitivas / 1000)
    have e7 := HC.abs_round3_sub_le
      (HC.calcularAlcance1Proceso d.scope1Proceso / 1000)
    rw [abs_le] at e0 e1 e2 e3 e4 e5 e6 e7 ⊢
    constructor <;> linarith
  · simp only [HC.recalculate]
    have e0 := HC.abs_round3_sub_le
      (((HC.calcularAlcance2 d.scope2Data).1 +
        (HC.calcularAlcance2 d.scope2Data).2.1 +
        (HC.calcularAlcance2 d.scope2Data).2.2) / 1000)
    have e1 := HC.abs_round3_sub_le ((HC.calcularAlcance2 d.scope2Data).1 / 1000)
    have e2 := HC.abs_round3_sub_le ((HC.calcularAlcance2 d.scope2Data).2.1 / 1000)
    have e3 := HC.abs_round3_sub_le ((HC.calcularAlcance2 d.scope2Data).2.2 / 1000)
    rw [abs_le] at e0 e1 e2 e3 ⊢
    constructor <;> linarith
  · simp only [HC.recalculate]
    have e0 := HC.abs_round3_sub_le
      ((((HC.calcularAlcance1InstalacionesFijas d.scope1Fijas).1 +
        (HC.calcularAlcance1InstalacionesFijas d.scope1Fijas).2 +
        (HC.calcularAlcance1Vehiculos d.scope1Vehiculos).1 +
        (HC.calcularAlcance1Vehiculos d.scope1Vehiculos).2.1 +
        (HC.calcularAlcance1Vehiculos d.scope1Vehiculos).2.2 +
        HC.calcularAlcance1Fugitivas d.scope1Fugitivas +
        HC.calcularAlcance1Proceso d.scope1Proceso) +
        ((HC.calcularAlcance2 d.scope2Data).1 +
        (HC.calcularAlcance2 d.scope2Data).2.1 +
        (HC.calcularAlcance2 d.scope2Data).2.2)) / 1000)
    have e1 := HC.abs_round3_sub_le
      (((HC.calcularAlcance1InstalacionesFijas d.scope1Fijas).1 +
        (HC.calcularAlcance1InstalacionesFijas d.scope1Fijas).2 +
        (HC.calcularAlcance1Vehiculos d.scope1Vehiculos).1 +
        (HC.calcularAlcance1Vehiculos d.scope1Vehiculos).2.1 +
        (HC.calcularAlcance1Vehiculos d.scope1Vehiculos).2.2 +
        HC.calcularAlcance1Fugitivas d.scope1Fugitivas +
        HC.calcularAlcance1Proceso d.scope1Proceso) / 1000)
    have e2 := HC.abs_round3_sub_le
      (((HC.calcularAlcance2 d.scope2Data).1 +
        (HC.calcularAlcance2 d.scope2Data).2.1 +
        (HC.calcularAlcance2 d.scope2Data).2.2) / 1000)
    rw [abs_le] at e0 e1 e2 ⊢
    constructor <;> linarith

/-- C5: with a positive prior-year combined total, a threshold alert is
produced iff the absolute percentage change strictly exceeds 10 %, and the
alert states direction, magnitude and both totals; without prior-year
results no alert is produced; 100 t → 115 t yields an increase alert of
15 %, while 100 t → 105 t and the exact-boundary 100 t → 110 t yield
none. -/
theorem HC.threshold_alert_iff (prev cur : HC.Resultados)
    (hp : 0 < prev.total_alcance_1_2_t_co2e) :
    (HC.checkThresholds (some prev) cur ≠ [] ↔
      |((cur.total_alcance_1_2_t_co2e - prev.total_alcance_1_2_t_co2e) /
          prev.total_alcance_1_2_t_co2e) * 100| > 10) ∧
    (∀ a ∈ HC.checkThresholds (some prev) cur,
      a.previousTotal = prev.total_alcance_1_2_t_co2e ∧
      a.currentTotal = cur.total_alcance_1_2_t_co2e ∧
      a.variacionAbs = |((cur.total_alcance_1_2_t_co2e -
          prev.total_alcance_1_2_t_co2e) /
          prev.total_alcance_1_2_t_co2e) * 100| ∧
      (a.direccion = .aumento ↔
        prev.total_alcance_1_2_t_co2e < cur.total_alcance_1_2_t_co2e)) ∧
    HC.checkThresholds none cur = [] ∧
    HC.checkThresholds (some (HC.resultadosTotal 100)) (HC.resultadosTotal 115) =
      [{ direccion := .aumento, variacionAbs := 15
         previousTotal := 100, currentTotal := 115 }] ∧
    HC.checkThresholds (some (HC.resultadosTotal 100)) (HC.resultadosTotal 105) =
      [] ∧
    HC.checkThresholds (some (HC.resultadosTotal 100)) (HC.resultadosTotal 110) =
      [] := by
  have hpos : ∀ x : ℚ, ((x - prev.total_alcance_1_2_t_co2e) /
      prev.total_alcance_1_2_t_co2e) * 100 > 0 ↔
      prev.total_alcance_1_2_t_co2e < x := by
    intro x
    rw [gt_iff_lt, mul_pos_iff]
    constructor
    · rintro (⟨h, -⟩ | ⟨-, h⟩)
      · have := (div_pos_iff.mp h)
        rcases this with ⟨h1, -⟩ | ⟨-, h2⟩
        · linarith
        · linarith
      · norm_num at h
    · intro hx
      left
      exact ⟨div_pos (by linarith) hp, by norm_num⟩
  refine ⟨?_, ?_, ?_, ?_, ?_, ?_⟩
  · by_cases h : |((cur.total_alcance_1_2_t_co2e - prev.total_alcance_1_2_t_co2e) /
        prev.total_alcance_1_2_t_co2e) * 100| > 10 <;>
      simp [HC.checkThresholds, hp, HC.THRESHOLD_PERCENT, h]
  · intro a ha
    rw [HC.checkThresholds] at ha
    rw [if_pos hp] at ha
    by_cases h : |((cur.total_alcance_1_2_t_co2e - prev.total_alcance_1_2_t_co2e) /
        prev.total_alcance_1_2_t_co2e) * 100| > 10
    · rw [if_pos (by simpa [HC.THRESHOLD_PERCENT] using h)] at ha
      simp only [List.mem_singleton] at ha
      subst ha
      refine ⟨rfl, rfl, rfl, ?_⟩
      by_cases hc : ((cur.total_alcance_1_2_t_co2e - prev.total_alcance_1_2_t_co2e) /
          prev.total_alcance_1_2_t_co2e) * 100 > 0
      · simp only [if_pos hc]
        simpa using (hpos cur.total_alcance_1_2_t_co2e).mp hc
      · simp only [if_neg hc]
        constructor
        · intro hcontra
          exact absurd hcontra (by simp)
        · intro hlt
          exact absurd ((hpos cur.total_alcance_1_2_t_co2e).mpr hlt) hc
    · rw [if_neg (by simpa [HC.THRESHOLD_PERCENT] using h)] at ha
      simp at ha
  · simp [HC.checkThresholds]
  · norm_num [HC.checkThresholds, HC.resultadosTotal, HC.THRESHOLD_PERCENT,
      abs_of_pos]
  · norm_num [HC.checkThresholds, HC.resultadosTotal, HC.THRESHOLD_PERCENT,
      abs_of_pos]
  · norm_num [HC.checkThresholds, HC.resultadosTotal, HC.THRESHOLD_PERCENT,
      abs_of_pos]

theorem HC.threshold_alert_iff_witness :
    HC.checkThresholds (some (HC.resultadosTotal 100)) (HC.resultadosTotal 115) =
      [{ direccion := .aumento, variacionAbs := 15
         previousTotal := 100, currentTotal := 115 }] ∧
    HC.checkThresholds (some (HC.resultadosTotal 100)) (HC.resultadosTotal 105) =
      [] :=
  ⟨(HC.threshold_alert_iff (HC.resultadosTotal 100) (HC.resultadosTotal 115)
      (by norm_num [HC.resultadosTotal])).2.2.2.1,
   (HC.threshold_alert_iff (HC.resultadosTotal 100) (HC.resultadosTotal 105)
      (by norm_num [HC.resultadosTotal])).2.2.2.2.1⟩

/-- C6: behaviour at the claim's failing input — a change event with the
in-range year 2024 whose `"cantidad"` field carries the negative value −3.
The calculation engine is indeed never reached, but `onDataChange` rejects
with the TypeError thrown by the validation agent's un-awaited
`loadEmissionFactors()` call, not with a `ValidationError` carrying a
structured error list. -/
theorem HC.negative_quantity_rejects_with_typeerror :
    (∀ orgId anioC, HC.PipelineStep.recalc orgId anioC ∉
      (HC.onDataChange ⟨⟨none, none, none, none, none, none⟩, none⟩
        { userId := "u1", orgId := "org1", anio := 2024, entity := "fixed"
          entityId := none, field := "cantidad", oldValue := .num 5
          newValue := .num (-3), timestamp := "t" }).1) ∧
    (HC.onDataChange ⟨⟨none, none, none, none, none, none⟩, none⟩
        { userId := "u1", orgId := "org1", anio := 2024, entity := "fixed"
          entityId := none, field := "cantidad", oldValue := .num 5
          newValue := .num (-3), timestamp := "t" }).2 =
      .error (.exception .typeError) ∧
    ∀ errs, (HC.onDataChange ⟨⟨none, none, none, none, none, none⟩, none⟩
        { userId := "u1", orgId := "org1", anio := 2024, entity := "fixed"
          entityId := none, field := "cantidad", oldValue := .num 5
          newValue := .num (-3), timestamp := "t" }).2 ≠
      .error (.validationError errs) := by
  have hv : HC.validate
      { userId := "u1", orgId := "org1", anio := 2024, entity := "fixed"
        entityId := none, field := "cantidad", oldValue := .num 5
        newValue := .num (-3), timestamp := "t" } = .error .typeError := by
    norm_num [HC.validate, HC.ruleAnio]
  refine ⟨?_, ?_, ?_⟩
  · intro orgId anioC
    simp [HC.onDataChange, hv]
  · simp [HC.onDataChange, hv]
  · intro errs
    simp [HC.onDataChange, hv]

/-- C7: for every change event, the pipeline's first executed step is the
audit-log append of the attempted change (field, old and new value) and
its second is validation — unconditionally, also when validation
subsequently rejects the event or throws. -/
theorem HC.audit_precedes_validation (env : HC.OrchestratorEnv)
    (event : HC.DataChangeEvent) :
    ((HC.auditRowOf event).campo_modificado = event.field ∧
     (HC.auditRowOf event).valor_anterior = event.oldValue ∧
     (HC.auditRowOf event).valor_nuevo = event.newValue) ∧
    ∃ rest, (HC.onDataChange env event).1 =
      HC.PipelineStep.audit (HC.auditRowOf event) ::
        HC.PipelineStep.validation (HC.validate event) :: rest := by
  refine ⟨⟨rfl, rfl, rfl⟩, ?_⟩
  cases hv : HC.validate event with
  | error e => exact ⟨[], by simp [HC.onDataChange, hv]⟩
  | ok v =>
    by_cases h : v.isValid = true
    · exact ⟨[HC.PipelineStep.recalc event.orgId event.anio,
        HC.PipelineStep.thresholds (HC.checkThresholds env.previousResults
          (HC.recalculate event.anio env.data))],
        by simp [HC.onDataChange, hv, h]⟩
    · rw [Bool.not_eq_true] at h
      exact ⟨[], by simp [HC.onDataChange, hv, h]⟩

/-- C8: the write guard blocks (with an error message) when the byte size
reaches the hard limit or the row count reaches the row limit — whichever
trips first; otherwise it allows the write, with a warning message exactly
when the byte size has reached the warn limit; and `checkWriteAllowed`
applies this policy to the measured usage. -/
theorem HC.guard_threshold_policy (bytes rows : ℕ) :
    (∀ now : ℤ, (HC.checkWriteAllowed now (some (bytes, rows)) none).1 =
      HC.guardVerdict bytes rows) ∧
    ((HC.HARD_LIMIT_BYTES ≤ bytes ∨ HC.MAX_ROWS ≤ rows) →
      (HC.guardVerdict bytes rows).allowed = false ∧
      (HC.guardVerdict bytes rows).hasError = true) ∧
    (bytes < HC.HARD_LIMIT_BYTES → rows < HC.MAX_ROWS →
      HC.WARN_LIMIT_BYTES ≤ bytes →
      (HC.guardVerdict bytes rows).allowed = true ∧
      (HC.guardVerdict bytes rows).hasWarning = true ∧
      (HC.guardVerdict bytes rows).hasError = false) ∧
    (bytes < HC.WARN_LIMIT_BYTES → rows < HC.MAX_ROWS →
      (HC.guardVerdict bytes rows).allowed = true ∧
      (HC.guardVerdict bytes rows).hasWarning = false ∧
      (HC.guardVerdict bytes rows).hasError = false) := by
  refine ⟨fun now => by simp [HC.checkWriteAllowed, HC.getDatabaseSize], ?_, ?_, ?_⟩
  · intro h
    by_cases h1 : bytes ≥ HC.HARD_LIMIT_BYTES
    · rw [show HC.guardVerdict bytes rows =
          { allowed := false, dbSizeBytes := bytes, rowCount := rows
            hasWarning := false, hasError := true } by
        unfold HC.guardVerdict
        rw [if_pos h1]]
      exact ⟨rfl, rfl⟩
    · have h2 : rows ≥ HC.MAX_ROWS := by omega
      rw [show HC.guardVerdict bytes rows =
          { allowed := false, dbSizeBytes := bytes, rowCount := rows
            hasWarning := false, hasError := true } by
        unfold HC.guardVerdict
        rw [if_neg h1, if_pos h2]]
      exact ⟨rfl, rfl⟩
  · intro h1 h2 h3
    rw [show HC.guardVerdict bytes rows =
        { allowed := true, dbSizeBytes := bytes, rowCount := rows
          hasWarning := true, hasError := false } by
      unfold HC.guardVerdict
      rw [if_neg (by omega : ¬ bytes ≥ HC.HARD_LIMIT_BYTES),
        if_neg (by omega : ¬ rows ≥ HC.MAX_ROWS),
        if_pos (h3 : bytes ≥ HC.WARN_LIMIT_BYTES)]]
    exact ⟨rfl, rfl, rfl⟩
  · intro h1 h2
    have hw : HC.WARN_LIMIT_BYTES < HC.HARD_LIMIT_BYTES := by
      norm_num [HC.WARN_LIMIT_BYTES, HC.HARD_LIMIT_BYTES]
    rw [show HC.guardVerdict bytes rows =
        { allowed := true, dbSizeBytes := bytes, rowCount := rows
          hasWarning := false, hasError := false } by
      unfold HC.guardVerdict
      rw [if_neg (by omega : ¬ bytes ≥ HC.HARD_LIMIT_BYTES),
        if_neg (by omega : ¬ rows ≥ HC.MAX_ROWS),
        if_neg (by omega : ¬ bytes ≥ HC.WARN_LIMIT_BYTES)]]
    exact ⟨rfl, rfl, rfl⟩

theorem HC.guard_threshold_policy_witness :
    ((HC.guardVerdict HC.HARD_LIMIT_BYTES 0).allowed = false ∧
      (HC.guardVerdict HC.HARD_LIMIT_BYTES 0).hasError = true) ∧
    ((HC.guardVerdict HC.WARN_LIMIT_BYTES 0).allowed = true ∧
      (HC.guardVerdict HC.WARN_LIMIT_BYTES 0).hasWarning = true ∧
      (HC.guardVerdict HC.WARN_LIMIT_BYTES 0).hasError = false) ∧
    ((HC.guardVerdict 0 0).allowed = true ∧
      (HC.guardVerdict 0 0).hasWarning = false ∧
      (HC.guardVerdict 0 0).hasError = false) :=
  ⟨(HC.guard_threshold_policy HC.HARD_LIMIT_BYTES 0).2.1 (Or.inl le_rfl),
   (HC.guard_threshold_policy HC.WARN_LIMIT_BYTES 0).2.2.1
     (by norm_num [HC.WARN_LIMIT_BYTES, HC.HARD_LIMIT_BYTES])
     (by norm_num [HC.MAX_ROWS]) le_rfl,
   (HC.guard_threshold_policy 0 0).2.2.2
     (by norm_num [HC.WARN_LIMIT_BYTES]) (by norm_num [HC.MAX_ROWS])⟩

/-- C9: a `checkWriteAllowed` call within the 60-second cache window is
served from the cached measurement — the verdict does not depend on the
current underlying usage — and a successful `upsertOrgData` write leaves
the cache invalidated (reset to `null`) at the moment its result is
returned, so the next check measures fresh usage. -/
theorem HC.guard_cache_and_invalidation :
    (∀ (c : HC.SizeCache) (now : ℤ) (usage usage' : Option (ℕ × ℕ)),
      now - c.checkedAt < HC.CACHE_TTL_MS →
      HC.checkWriteAllowed now usage (some c) =
        (HC.guardVerdict c.bytes c.rows, some c) ∧
      (HC.checkWriteAllowed now usage (some c)).1 =
        (HC.checkWriteAllowed now usage' (some c)).1) ∧
    (∀ (now : ℤ) (usage : Option (ℕ × ℕ)) (cache : HC.GuardCache),
      (HC.upsertOrgData now usage cache).1 = .written →
      (HC.upsertOrgData now usage cache).2 = none) := by
  have hcached : ∀ (c : HC.SizeCache) (now : ℤ) (usage : Option (ℕ × ℕ)),
      now - c.checkedAt < HC.CACHE_TTL_MS →
      HC.checkWriteAllowed now usage (some c) =
        (HC.guardVerdict c.bytes c.rows, some c) := by
    intro c now usage h
    simp [HC.checkWriteAllowed, HC.getDatabaseSize, h]
  refine ⟨fun c now usage usage' h => ⟨hcached c now usage h, ?_⟩, ?_⟩
  · rw [hcached c now usage h, hcached c now usage' h]
  · intro now usage cache h
    unfold HC.upsertOrgData at h ⊢
    by_cases ha : (HC.checkWriteAllowed now usage cache).1.allowed = true
    · simp [ha, HC.invalidateCache]
    · rw [Bool.not_eq_true] at ha
      simp [ha] at h

theorem HC.guard_cache_and_invalidation_witness :
    HC.checkWriteAllowed 10 (some (HC.HARD_LIMIT_BYTES, 5)) (some ⟨0, 0, 0⟩) =
        (HC.guardVerdict 0 0, some ⟨0, 0, 0⟩) ∧
    (HC.upsertOrgData 10 (some (0, 0)) none).2 = none :=
  ⟨(HC.guard_cache_and_invalidation.1 ⟨0, 0, 0⟩ 10
      (some (HC.HARD_LIMIT_BYTES, 5)) (some (HC.HARD_LIMIT_BYTES, 5))
      (by norm_num [HC.CACHE_TTL_MS])).1,
   HC.guard_cache_and_invalidation.2 10 (some (0, 0)) none
     (by norm_num [HC.upsertOrgData, HC.checkWriteAllowed, HC.getDatabaseSize,
       HC.guardVerdict, HC.invalidateCache, HC.HARD_LIMIT_BYTES,
       HC.WARN_LIMIT_BYTES, HC.MAX_ROWS])⟩

/-- C10: when the usage-statistics queries fail and no live cache entry
exists, `getDatabaseSize` reports zero bytes and zero rows without caching
that measurement, and `checkWriteAllowed` returns `allowed = true` with
neither message — a statistics failure fails open instead of propagating
an error. -/
theorem HC.stats_failure_fails_open (now : ℤ) (cache : HC.GuardCache)
    (h : ∀ c, cache = some c → HC.CACHE_TTL_MS ≤ now - c.checkedAt) :
    HC.getDatabaseSize now none cache = (⟨0, 0, now⟩, cache) ∧
    (HC.checkWriteAllowed now none cache).1 =
      { allowed := true, dbSizeBytes := 0, rowCount := 0
        hasWarning := false, hasError := false } := by
  have h1 : HC.getDatabaseSize now none cache = (⟨0, 0, now⟩, cache) := by
    cases cache with
    | none => simp [HC.getDatabaseSize]
    | some c =>
      have hc := h c rfl
      simp [HC.getDatabaseSize, not_lt.mpr hc]
  refine ⟨h1, ?_⟩
  simp [HC.checkWriteAllowed, h1, HC.guardVerdict, HC.HARD_LIMIT_BYTES,
    HC.WARN_LIMIT_BYTES, HC.MAX_ROWS]

theorem HC.stats_failure_fails_open_witness :
    HC.getDatabaseSize 7 none none = (⟨0, 0, 7⟩, none) ∧
    (HC.checkWriteAllowed 7 none none).1 =
      { allowed := true, dbSizeBytes := 0, rowCount := 0
        hasWarning := false, hasError := false } :=
  HC.stats_failure_fails_open 7 none (fun c hc => by simp at hc)
